import Mathlib

/-!
Verification development for the TF2 Rich Presence core: a shallow
embedding of the custom-map gamemode resolver (custom_maps.py) and of the
main polling loop's branch structure (main.py), with theorems about cache
policy, failure handling and the per-tick state machine.

Modelling conventions:
* Python dicts keyed by strings become association lists
  (List (String × α)); dict assignment is setEntry (overwrite in place,
  else append), dict lookup is lookupKey.
* Unix timestamps and the TTL setting are Nat; the age comparison
  `seconds_since_epoch_now - cached_data[2] <= hours * 3600` is done in Int,
  matching Python integer arithmetic.
* The network is modelled by a NetResult value describing what the single
  `requests.get` + `r.json()` of one resolution would yield: a
  connect/read timeout, any other exception (transport error or a body
  that fails to parse as JSON), or a parsed JSON body in which the key
  `all_gamemodes` is either absent (KeyError when indexed) or a list of
  tag strings.
* GUI calls, logging, the Steam-config scan, process-priority and GC
  operations of main.py are external collaborators out of scope of the
  claims and are not represented in the state.
-/

namespace TF2RP

/-- One cached resolution: gamemode id, display name, resolved-at unix
seconds (the list [gamemode, fancy, timestamp] stored in DB.json). -/
abbrev Entry := String × String × Nat

/-- The custom_maps section of DB.json: map filename → Entry. -/
abbrev Cache := List (String × Entry)

/-- Dict lookup on an association list keyed by strings. -/
def lookupKey {α : Type} : List (String × α) → String → Option α
  | [], _ => none
  | (k0, v) :: rest, k => if k0 = k then some v else lookupKey rest k

/-- Dict assignment: overwrite the value at the key if present, keeping its
position, else append the new key at the end (Python dict semantics). -/
def setEntry : Cache → String → Entry → Cache
  | [], k, v => [(k, v)]
  | (k0, v0) :: rest, k, v =>
      if k0 = k then (k, v) :: rest else (k0, v0) :: setEntry rest k v

/-- The fixed translation table of custom_maps.py (module-level
`gamemodes` dict, lines 117-123): gamemode tag → display name. -/
def gamemodes : List (String × String) :=
  [("ctf", "Capture the Flag"), ("control-point", "Control Point"),
   ("attack-defend", "Attack/Defend"), ("medieval-mode", "Attack/Defend (Medieval Mode)"),
   ("territorial-control", "Territorial Control"), ("payload", "Payload"),
   ("payload-race", "Payload Race"), ("koth", "King of the Hill"),
   ("special-delivery", "Special Delivery"), ("mvm", "Mann vs. Machine"),
   ("beta-map", "Robot Destruction"), ("mannpower", "Mannpower"),
   ("passtime", "PASS Time"), ("player-destruction", "Player Destruction"),
   ("arena", "Arena"), ("training", "Training"), ("surfing", "Surfing"),
   ("trading", "Trading"), ("jumping", "Jumping"), ("deathmatch", "Deathmatch"),
   ("cp-orange", "Orange"), ("versus-saxton-hale", "Versus Saxton Hale"),
   ("deathrun", "Deathrun"), ("achievement", "Achievement"),
   ("breakout", "Jail Breakout"), ("slender", "Slender"),
   ("dodgeball", "Dodgeball"), ("mario-kart", "Mario Kart"),
   ("prophunt", "Prop Hunt"), ("class-wars", "Class Wars"),
   ("stop-that-tank", "Stop that Tank!")]

/-- The for-loop of custom_maps.py lines 72-84: the first tag of the
response (in response order) that is a key of `gamemodes`, together with
its display name; none when no tag matches. -/
def firstRecognized : List String → Option (String × String)
  | [] => none
  | tag :: rest =>
      match lookupKey gamemodes tag with
      | some fancy => some (tag, fancy)
      | none => firstRecognized rest

/-- The cache lookup of custom_maps.py lines 40-50: none when force_api
raises the deliberate KeyError, when the map has no entry, or when the
entry is outdated (strictly older than map_invalidation_hours * 3600
seconds); some (gamemode, fancy) on a valid hit. -/
def cache_hit (cache : Cache) (now ttl_hours : Nat) (map_filename : String)
    (force_api : Bool) : Option (String × String) :=
  if force_api then none
  else
    match lookupKey cache map_filename with
    | some (g, f, t) =>
        if (now : Int) - (t : Int) ≤ (ttl_hours : Int) * 3600 then some (g, f) else none
    | none => none

/-- What the single network interaction of one resolution
(`requests.get` then `r.json()`, custom_maps.py lines 56-57) would yield. -/
inductive NetResult where
  | timeout
  | transport_error
  | ok (body : Option (List String))
deriving Repr, DecidableEq

/-- Result of one call to find_custom_map_gamemode: the returned pair, the
persisted custom-maps cache after the call, and whether a network request
was issued. -/
structure ResolveOutcome where
  result : String × String
  cache : Cache
  network_called : Bool
deriving Repr, DecidableEq

/-- custom_maps.find_custom_map_gamemode (custom_maps.py lines 21-96).
common_custom is the `common_custom` table of maps.json (a bundled
resource, not source; kept abstract as a parameter), cache the
custom_maps section of DB.json read at line 36, now the
seconds_since_epoch_now of line 27, ttl_hours the map_invalidation_hours
setting, net the network model. -/
def find_custom_map_gamemode (common_custom : List (String × (String × String)))
    (cache : Cache) (now ttl_hours : Nat) (map_filename : String)
    (force_api : Bool) (net : NetResult) : ResolveOutcome :=
  -- line 22: blank map filename
  if map_filename = "" then
    { result := ("unknown_map", "Unknown gamemode"), cache := cache, network_called := false }
  else
    -- lines 29-33: static table lookup, before any cache or network access
    match lookupKey common_custom map_filename with
    | some gamemode =>
        { result := gamemode, cache := cache, network_called := false }
    | none =>
        -- lines 40-50: cache lookup with TTL
        match cache_hit cache now ttl_hours map_filename force_api with
        | some cached =>
            { result := cached, cache := cache, network_called := false }
        | none =>
            match net with
            -- lines 59-63: ConnectTimeout/ReadTimeout, not caching
            | NetResult.timeout =>
                { result := ("unknown_map", "Unknown gamemode"), cache := cache,
                  network_called := true }
            -- lines 64-66: any other exception, return without caching
            | NetResult.transport_error =>
                { result := ("unknown_map", "Unknown gamemode"), cache := cache,
                  network_called := true }
            | NetResult.ok body =>
                match body with
                -- lines 85-96: KeyError on map_info, cache the sentinel
                | none =>
                    { result := ("unknown_map", "Unknown gamemode"),
                      cache := setEntry cache map_filename
                        ("unknown_map", "Unknown gamemode", now),
                      network_called := true }
                | some tags =>
                    match firstRecognized tags with
                    -- lines 72-84: first matching tag, cache it
                    | some (gamemode, fancy) =>
                        { result := (gamemode, fancy),
                          cache := setEntry cache map_filename (gamemode, fancy, now),
                          network_called := true }
                    -- lines 88-96: no recognized tag, cache the sentinel
                    | none =>
                        { result := ("unknown_map", "Unknown gamemode"),
                          cache := setEntry cache map_filename
                            ("unknown_map", "Unknown gamemode", now),
                          network_called := true }

/-- The persisted DB.json document: its custom_maps section plus the rest
of the document, opaque to custom_maps.py. -/
structure DB where
  custom_maps : Cache
  other_data : Nat
deriving Repr, DecidableEq

/-- custom_maps.access_custom_maps_cache (custom_maps.py lines 100-106).
The write branch is guarded by Python truthiness of dict_input
(`if dict_input:`), so both None and an empty dict take the read branch;
the read branch returns the custom_maps section and leaves the document
unchanged. Result: (persisted document after the call, returned value). -/
def access_custom_maps_cache (db : DB) (dict_input : Option Cache) : DB × Option Cache :=
  match dict_input with
  | some d =>
      if !d.isEmpty then ({ db with custom_maps := d }, none)
      else (db, some db.custom_maps)
  | none => (db, some db.custom_maps)

/-- The `running` flags of the process scan (main.py line 190) for the
three required processes. -/
structure PData where
  tf2_running : Bool
  discord_running : Bool
  steam_running : Bool
deriving Repr, DecidableEq

/-- The fields of main.TF2RichPresense touched by the claims: the session
state string, sleep-rate mode, RPC connection flag, the class-config
guard, the should_mention flags, and two event counters recording how
often configs.class_config_files was invoked and how often
rpc_client.disconnect was invoked. -/
structure AppState where
  test_state : String
  slow_sleep_time : Bool
  client_connected : Bool
  has_checked_class_configs : Bool
  should_mention_tf2 : Bool
  should_mention_discord : Bool
  should_mention_steam : Bool
  class_config_runs : Nat
  rpc_disconnects : Nat
deriving Repr, DecidableEq

/-- The relevant field values set by TF2RichPresense.__init__
(main.py lines 96-103). -/
def initial_app_state : AppState :=
  { test_state := "init", slow_sleep_time := false, client_connected := false,
    has_checked_class_configs := false, should_mention_tf2 := true,
    should_mention_discord := true, should_mention_steam := true,
    class_config_runs := 0, rpc_disconnects := 0 }

/-- Python str.lower restricted to ASCII (every name lowered by main.py is
ASCII); written over the character list so it computes by structural
recursion. -/
def py_lower (s : String) : String :=
  String.mk (s.data.map (fun c =>
    if 65 ≤ c.toNat ∧ c.toNat ≤ 90 then Char.ofNat (c.toNat + 32) else c))

/-- The two exception messages recognized as non-fatal by
send_rpc_activity (main.py line 380). -/
def recognized_rpc_errors : List String :=
  ["Can't send data to Discord via IPC.", "Can't connect to Discord Client."]

/-- Outcome of the connect + update_activity attempt inside
send_rpc_activity: full success, or an exception with a message. -/
inductive RpcAttempt where
  | success
  | failure (msg : String)
deriving Repr, DecidableEq

/-- main.TF2RichPresense.send_rpc_activity (main.py lines 367-385): on
success set client_connected; an exception whose message is one of the two
recognized strings is logged and swallowed, leaving the state as it was;
any other exception is re-raised (Except.error). -/
def send_rpc_activity (s : AppState) (att : RpcAttempt) : Except String AppState :=
  match att with
  | RpcAttempt.success => Except.ok { s with client_connected := true }
  | RpcAttempt.failure msg =>
      if msg ∈ recognized_rpc_errors then Except.ok s
      else Except.error msg

/-- main.TF2RichPresense.necessary_program_not_running (main.py lines
345-364): default the short name to the program name when blank, set
test_state to the lowercased "no X" variant, mark the slow sleep interval,
and disconnect the RPC client if it was connected. -/
def necessary_program_not_running (s : AppState) (program_name name_short : String) :
    AppState :=
  let ns := if name_short = "" then program_name else name_short
  let s1 := { s with test_state := "no " ++ py_lower ns, slow_sleep_time := true }
  if s1.client_connected then
    { s1 with rpc_disconnects := s1.rpc_disconnects + 1, client_connected := false }
  else s1

/-- main.TF2RichPresense.loop_body, restricted to the branch structure the
claims concern (main.py lines 181, 215-222, 242-260, 290-297, 308-317).
in_menus stands for game_state.in_menus and update_rpc for
game_state.update_rpc, both computed by external collaborators; att is
the network model for the RPC publish. The result pairs the state as
mutated by the tick with the message of an uncaught exception, if the
publish raised one (Python mutates in place, so the state before the
raise is kept). -/
def loop_body (s : AppState) (p : PData) (in_menus update_rpc : Bool)
    (att : RpcAttempt) : AppState × Option String :=
  -- line 181: slow_sleep_time is cleared at the top of every tick
  let s0 := { s with slow_sleep_time := false }
  if p.tf2_running && p.discord_running && p.steam_running then
    -- lines 219-222: one-shot class-config side effect
    let s1 :=
      if !s0.has_checked_class_configs then
        { s0 with class_config_runs := s0.class_config_runs + 1,
                  has_checked_class_configs := true }
      else s0
    -- lines 242-260: session state from the menus flag
    let s2 := { s1 with test_state := if in_menus then "menus" else "in game" }
    -- lines 290-297: publish only when update_rpc
    if update_rpc then
      match send_rpc_activity s2 att with
      | Except.ok s3 => (s3, none)
      | Except.error msg => (s2, some msg)
    else (s2, none)
  else if !p.tf2_running then
    -- lines 308-310
    let s1 := necessary_program_not_running s0 "Team Fortress 2" "TF2"
    ({ s1 with should_mention_tf2 := false }, none)
  else if !p.discord_running then
    -- lines 311-313
    let s1 := necessary_program_not_running s0 "Discord" ""
    ({ s1 with should_mention_discord := false }, none)
  else
    -- lines 314-317
    let s1 := necessary_program_not_running s0 "Steam" ""
    ({ s1 with should_mention_steam := false }, none)

theorem lookupKey_setEntry (c : Cache) (k : String) (v : Entry) :
    lookupKey (setEntry c k v) k = some v := by
  induction c with
  | nil => simp [setEntry, lookupKey]
  | cons hd tl ih =>
      obtain ⟨k0, v0⟩ := hd
      by_cases h : k0 = k
      · simp [setEntry, lookupKey, h]
      · simp [setEntry, lookupKey, h, ih]

theorem cache_hit_of_fresh {cache : Cache} {now ttl_hours t : Nat}
    {map_filename g f : String}
    (hc : lookupKey cache map_filename = some (g, f, t))
    (hle : (now : Int) - (t : Int) ≤ (ttl_hours : Int) * 3600) :
    cache_hit cache now ttl_hours map_filename false = some (g, f) := by
  unfold cache_hit
  rw [hc]
  simp [hle]

theorem cache_hit_of_expired {cache : Cache} {now ttl_hours t : Nat}
    {map_filename g f : String}
    (hc : lookupKey cache map_filename = some (g, f, t))
    (hlt : (ttl_hours : Int) * 3600 < (now : Int) - (t : Int)) :
    cache_hit cache now ttl_hours map_filename false = none := by
  unfold cache_hit
  rw [hc]
  simp [not_le.mpr hlt]

theorem find_of_static {common_custom : List (String × (String × String))}
    {cache : Cache} {now ttl_hours : Nat} {map_filename : String} {force_api : Bool}
    {net : NetResult} {gm : String × String}
    (hm : map_filename ≠ "") (hs : lookupKey common_custom map_filename = some gm) :
    find_custom_map_gamemode common_custom cache now ttl_hours map_filename force_api net =
      { result := gm, cache := cache, network_called := false } := by
  unfold find_custom_map_gamemode
  rw [if_neg hm, hs]

theorem find_of_cache_hit {common_custom : List (String × (String × String))}
    {cache : Cache} {now ttl_hours : Nat} {map_filename : String} {force_api : Bool}
    {net : NetResult} {r : String × String}
    (hm : map_filename ≠ "") (hs : lookupKey common_custom map_filename = none)
    (hh : cache_hit cache now ttl_hours map_filename force_api = some r) :
    find_custom_map_gamemode common_custom cache now ttl_hours map_filename force_api net =
      { result := r, cache := cache, network_called := false } := by
  unfold find_custom_map_gamemode
  rw [if_neg hm, hs, hh]

theorem find_of_timeout {common_custom : List (String × (String × String))}
    {cache : Cache} {now ttl_hours : Nat} {map_filename : String} {force_api : Bool}
    (hm : map_filename ≠ "") (hs : lookupKey common_custom map_filename = none)
    (hh : cache_hit cache now ttl_hours map_filename force_api = none) :
    find_custom_map_gamemode common_custom cache now ttl_hours map_filename force_api
        NetResult.timeout =
      { result := ("unknown_map", "Unknown gamemode"), cache := cache,
        network_called := true } := by
  unfold find_custom_map_gamemode
  rw [if_neg hm, hs, hh]

theorem find_of_transport_error {common_custom : List (String × (String × String))}
    {cache : Cache} {now ttl_hours : Nat} {map_filename : String} {force_api : Bool}
    (hm : map_filename ≠ "") (hs : lookupKey common_custom map_filename = none)
    (hh : cache_hit cache now ttl_hours map_filename force_api = none) :
    find_custom_map_gamemode common_custom cache now ttl_hours map_filename force_api
        NetResult.transport_error =
      { result := ("unknown_map", "Unknown gamemode"), cache := cache,
        network_called := true } := by
  unfold find_custom_map_gamemode
  rw [if_neg hm, hs, hh]

theorem find_of_ok_match {common_custom : List (String × (String × String))}
    {cache : Cache} {now ttl_hours : Nat} {map_filename : String} {force_api : Bool}
    {tags : List String} {g fancy : String}
    (hm : map_filename ≠ "") (hs : lookupKey common_custom map_filename = none)
    (hh : cache_hit cache now ttl_hours map_filename force_api = none)
    (ht : firstRecognized tags = some (g, fancy)) :
    find_custom_map_gamemode common_custom cache now ttl_hours map_filename force_api
        (NetResult.ok (some tags)) =
      { result := (g, fancy), cache := setEntry cache map_filename (g, fancy, now),
        network_called := true } := by
  unfold find_custom_map_gamemode
  rw [if_neg hm, hs, hh]
  simp [ht]

theorem find_of_ok_no_match {common_custom : List (String × (String × String))}
    {cache : Cache} {now ttl_hours : Nat} {map_filename : String} {force_api : Bool}
    {tags : List String}
    (hm : map_filename ≠ "") (hs : lookupKey common_custom map_filename = none)
    (hh : cache_hit cache now ttl_hours map_filename force_api = none)
    (ht : firstRecognized tags = none) :
    find_custom_map_gamemode common_custom cache now ttl_hours map_filename force_api
        (NetResult.ok (some tags)) =
      { result := ("unknown_map", "Unknown gamemode"),
        cache := setEntry cache map_filename ("unknown_map", "Unknown gamemode", now),
        network_called := true } := by
  unfold find_custom_map_gamemode
  rw [if_neg hm, hs, hh]
  simp [ht]

theorem find_network_called {common_custom : List (String × (String × String))}
    {cache : Cache} {now ttl_hours : Nat} {map_filename : String} {force_api : Bool}
    (hm : map_filename ≠ "") (hs : lookupKey common_custom map_filename = none)
    (hh : cache_hit cache now ttl_hours map_filename force_api = none) (net : NetResult) :
    (find_custom_map_gamemode common_custom cache now ttl_hours map_filename force_api
        net).network_called = true := by
  unfold find_custom_map_gamemode
  rw [if_neg hm, hs, hh]
  cases net with
  | timeout => rfl
  | transport_error => rfl
  | ok body =>
      cases body with
      | none => rfl
      | some tags =>
          cases hfr : firstRecognized tags with
          | none => simp [hfr]
          | some p => obtain ⟨g, fancy⟩ := p; simp [hfr]

/-- C1, counterexample: at a concrete input (map absent from the static
table and the cache, network failing with a non-timeout transport error)
the resolver returns the sentinel pair but writes nothing to the cache —
the cache is still empty, holds no entry for the map, and an immediately
repeated call issues another network request, contrary to the claim. -/
theorem C1_counterexample_transport_error_not_cached :
    ¬ (lookupKey (find_custom_map_gamemode [] [] 1000 24 "cp_mymap_b1" false
        NetResult.transport_error).cache "cp_mymap_b1" =
       some ("unknown_map", "Unknown gamemode", 1000)) ∧
    (find_custom_map_gamemode [] [] 1000 24 "cp_mymap_b1" false
        NetResult.transport_error).result = ("unknown_map", "Unknown gamemode") ∧
    (find_custom_map_gamemode [] [] 1000 24 "cp_mymap_b1" false
        NetResult.transport_error).cache = [] ∧
    (find_custom_map_gamemode []
        (find_custom_map_gamemode [] [] 1000 24 "cp_mymap_b1" false
          NetResult.transport_error).cache
        1000 24 "cp_mymap_b1" false NetResult.transport_error).network_called = true := by
  refine ⟨by decide, by decide, by decide, by decide⟩

/-- C1, amended: when the network interaction fails for a reason other
than a connect/read timeout (a transport error or a body that fails to
parse as JSON), the resolver returns the sentinel pair and leaves the
cache unchanged — nothing is written, so a repeated call for the same map
issues another network request; the sentinel is cached only when the
response parses but yields no recognized tag. -/
theorem C1_transport_or_parse_failure_returns_sentinel_uncached
    (common_custom : List (String × (String × String))) (cache : Cache)
    (now ttl_hours : Nat) (map_filename : String) (force_api : Bool)
    (hm : map_filename ≠ "") (hs : lookupKey common_custom map_filename = none)
    (hh : cache_hit cache now ttl_hours map_filename force_api = none) :
    find_custom_map_gamemode common_custom cache now ttl_hours map_filename force_api
        NetResult.transport_error =
      { result := ("unknown_map", "Unknown gamemode"), cache := cache,
        network_called := true } ∧
    ∀ net2, (find_custom_map_gamemode common_custom cache now ttl_hours map_filename
        force_api net2).network_called = true :=
  ⟨find_of_transport_error hm hs hh, fun net2 => find_network_called hm hs hh net2⟩

theorem C1_transport_or_parse_failure_witness :
    (("cp_mymap_b1" : String) ≠ "" ∧
     lookupKey ([] : List (String × (String × String))) "cp_mymap_b1" = none ∧
     cache_hit [] 1000 24 "cp_mymap_b1" false = none) ∧
    (find_custom_map_gamemode [] [] 1000 24 "cp_mymap_b1" false
        NetResult.transport_error =
      { result := ("unknown_map", "Unknown gamemode"), cache := [],
        network_called := true } ∧
    ∀ net2, (find_custom_map_gamemode [] [] 1000 24 "cp_mymap_b1" false
        net2).network_called = true) :=
  ⟨⟨by decide, by decide, by decide⟩,
   C1_transport_or_parse_failure_returns_sentinel_uncached [] [] 1000 24 "cp_mymap_b1"
     false (by decide) (by decide) (by decide)⟩

/-- C2: with force_remote false and a cache entry present, an entry whose
age satisfies now - resolved_at <= ttl * 3600 (the boundary included) is
returned from the cache with no network call and no cache change; the
entry falls through to network resolution exactly when the age exceeds
the TTL strictly. -/
theorem C2_cache_hit_within_ttl_no_network
    (common_custom : List (String × (String × String))) (cache : Cache)
    (now ttl_hours t : Nat) (map_filename g f : String) (net : NetResult)
    (hm : map_filename ≠ "") (hs : lookupKey common_custom map_filename = none)
    (hc : lookupKey cache map_filename = some (g, f, t)) :
    ((now : Int) - (t : Int) ≤ (ttl_hours : Int) * 3600 →
      find_custom_map_gamemode common_custom cache now ttl_hours map_filename false net =
        { result := (g, f), cache := cache, network_called := false }) ∧
    ((ttl_hours : Int) * 3600 < (now : Int) - (t : Int) →
      (find_custom_map_gamemode common_custom cache now ttl_hours map_filename false
        net).network_called = true) :=
  ⟨fun hle => find_of_cache_hit hm hs (cache_hit_of_fresh hc hle),
   fun hlt => find_network_called hm hs (cache_hit_of_expired hc hlt) net⟩

theorem C2_cache_hit_boundary_witness :
    (("koth_x_v2" : String) ≠ "" ∧
     lookupKey ([] : List (String × (String × String))) "koth_x_v2" = none ∧
     lookupKey [("koth_x_v2", ("koth", "King of the Hill", 1000))] "koth_x_v2" =
       some ("koth", "King of the Hill", 1000)) ∧
    ((8200 : Int) - (1000 : Int) = (2 : Int) * 3600 ∧
     find_custom_map_gamemode [] [("koth_x_v2", ("koth", "King of the Hill", 1000))]
        8200 2 "koth_x_v2" false NetResult.timeout =
      { result := ("koth", "King of the Hill"),
        cache := [("koth_x_v2", ("koth", "King of the Hill", 1000))],
        network_called := false }) :=
  ⟨⟨by decide, by decide, by decide⟩,
   ⟨by decide,
    (C2_cache_hit_within_ttl_no_network [] [("koth_x_v2", ("koth", "King of the Hill", 1000))]
      8200 2 1000 "koth_x_v2" "koth" "King of the Hill" NetResult.timeout
      (by decide) (by decide) (by decide)).1 (by decide)⟩⟩

/-- C3: when the remote lookup succeeds and the first recognized tag of
the response (in response order) is g with display name fancy, the
resolver returns (g, fancy) and writes the entry (g, fancy, now) into the
cache under the map name. -/
theorem C3_first_matching_tag_cached
    (common_custom : List (String × (String × String))) (cache : Cache)
    (now ttl_hours : Nat) (map_filename : String) (force_api : Bool)
    (tags : List String) (g fancy : String)
    (hm : map_filename ≠ "") (hs : lookupKey common_custom map_filename = none)
    (hh : cache_hit cache now ttl_hours map_filename force_api = none)
    (ht : firstRecognized tags = some (g, fancy)) :
    find_custom_map_gamemode common_custom cache now ttl_hours map_filename force_api
        (NetResult.ok (some tags)) =
      { result := (g, fancy), cache := setEntry cache map_filename (g, fancy, now),
        network_called := true } ∧
    lookupKey (find_custom_map_gamemode common_custom cache now ttl_hours map_filename
        force_api (NetResult.ok (some tags))).cache map_filename =
      some (g, fancy, now) := by
  refine ⟨find_of_ok_match hm hs hh ht, ?_⟩
  rw [find_of_ok_match hm hs hh ht]
  exact lookupKey_setEntry cache map_filename (g, fancy, now)

theorem C3_cp_catwalk_witness :
    (("cp_catwalk_a5c" : String) ≠ "" ∧
     lookupKey ([] : List (String × (String × String))) "cp_catwalk_a5c" = none ∧
     cache_hit [] 1234 24 "cp_catwalk_a5c" false = none ∧
     firstRecognized ["control-point", "other-tag"] =
       some ("control-point", "Control Point")) ∧
    (find_custom_map_gamemode [] [] 1234 24 "cp_catwalk_a5c" false
        (NetResult.ok (some ["control-point", "other-tag"])) =
      { result := ("control-point", "Control Point"),
        cache := [("cp_catwalk_a5c", ("control-point", "Control Point", 1234))],
        network_called := true } ∧
     lookupKey (find_custom_map_gamemode [] [] 1234 24 "cp_catwalk_a5c" false
        (NetResult.ok (some ["control-point", "other-tag"]))).cache "cp_catwalk_a5c" =
      some ("control-point", "Control Point", 1234)) :=
  ⟨⟨by decide, by decide, by decide, by decide⟩,
   C3_first_matching_tag_cached [] [] 1234 24 "cp_catwalk_a5c" false
     ["control-point", "other-tag"] "control-point" "Control Point"
     (by decide) (by decide) (by decide) (by decide)⟩

/-- C4: resolving an unresolvable map (response parses but no tag is
recognized) caches the sentinel with the current timestamp and returns
it, and every repeated call within the TTL window answers from the cache
with no network request — at most one network call per TTL window. -/
theorem C4_unresolvable_cached_once_per_ttl
    (common_custom : List (String × (String × String))) (cache : Cache)
    (now now2 ttl_hours : Nat) (map_filename : String) (tags : List String)
    (hm : map_filename ≠ "") (hs : lookupKey common_custom map_filename = none)
    (hh : cache_hit cache now ttl_hours map_filename false = none)
    (ht : firstRecognized tags = none)
    (hdt : (now2 : Int) - (now : Int) ≤ (ttl_hours : Int) * 3600) :
    find_custom_map_gamemode common_custom cache now ttl_hours map_filename false
        (NetResult.ok (some tags)) =
      { result := ("unknown_map", "Unknown gamemode"),
        cache := setEntry cache map_filename ("unknown_map", "Unknown gamemode", now),
        network_called := true } ∧
    ∀ net2,
      find_custom_map_gamemode common_custom
          (setEntry cache map_filename ("unknown_map", "Unknown gamemode", now))
          now2 ttl_hours map_filename false net2 =
        { result := ("unknown_map", "Unknown gamemode"),
          cache := setEntry cache map_filename ("unknown_map", "Unknown gamemode", now),
          network_called := false } :=
  ⟨find_of_ok_no_match hm hs hh ht,
   fun _ => find_of_cache_hit hm hs
     (cache_hit_of_fresh (lookupKey_setEntry cache map_filename
       ("unknown_map", "Unknown gamemode", now)) hdt)⟩

theorem C4_ytsb8eitybw_witness :
    (("ytsb8eitybw" : String) ≠ "" ∧
     lookupKey ([] : List (String × (String × String))) "ytsb8eitybw" = none ∧
     cache_hit [] 100 24 "ytsb8eitybw" false = none ∧
     firstRecognized [] = none ∧
     (101 : Int) - (100 : Int) ≤ (24 : Int) * 3600) ∧
    (find_custom_map_gamemode [] [] 100 24 "ytsb8eitybw" false
        (NetResult.ok (some [])) =
      { result := ("unknown_map", "Unknown gamemode"),
        cache := [("ytsb8eitybw", ("unknown_map", "Unknown gamemode", 100))],
        network_called := true } ∧
     ∀ net2,
       find_custom_map_gamemode []
           [("ytsb8eitybw", ("unknown_map", "Unknown gamemode", 100))]
           101 24 "ytsb8eitybw" false net2 =
         { result := ("unknown_map", "Unknown gamemode"),
           cache := [("ytsb8eitybw", ("unknown_map", "Unknown gamemode", 100))],
           network_called := false }) :=
  ⟨⟨by decide, by decide, by decide, by decide, by decide⟩,
   C4_unresolvable_cached_once_per_ttl [] [] 100 101 24 "ytsb8eitybw" []
     (by decide) (by decide) (by decide) (by decide) (by decide)⟩

/-- C5: a map present in the static common_custom table is answered from
the table immediately, for every force_api value and every network model,
with the cache unchanged and no network request — such a map is never
looked up remotely. -/
theorem C5_static_table_precedence
    (common_custom : List (String × (String × String))) (cache : Cache)
    (now ttl_hours : Nat) (map_filename : String) (force_api : Bool)
    (net : NetResult) (gm : String × String)
    (hm : map_filename ≠ "") (hs : lookupKey common_custom map_filename = some gm) :
    find_custom_map_gamemode common_custom cache now ttl_hours map_filename force_api net =
      { result := gm, cache := cache, network_called := false } :=
  find_of_static hm hs

theorem C5_static_table_witness :
    (("cp_glassworks_rc7a" : String) ≠ "" ∧
     lookupKey [("cp_glassworks_rc7a", ("cp", "Glassworks"))] "cp_glassworks_rc7a" =
       some ("cp", "Glassworks")) ∧
    find_custom_map_gamemode [("cp_glassworks_rc7a", ("cp", "Glassworks"))]
        [("cp_glassworks_rc7a", ("unknown_map", "Unknown gamemode", 5))] 9999 24
        "cp_glassworks_rc7a" true NetResult.transport_error =
      { result := ("cp", "Glassworks"),
        cache := [("cp_glassworks_rc7a", ("unknown_map", "Unknown gamemode", 5))],
        network_called := false } :=
  ⟨⟨by decide, by decide⟩,
   C5_static_table_precedence [("cp_glassworks_rc7a", ("cp", "Glassworks"))]
     [("cp_glassworks_rc7a", ("unknown_map", "Unknown gamemode", 5))] 9999 24
     "cp_glassworks_rc7a" true NetResult.transport_error ("cp", "Glassworks")
     (by decide) (by decide)⟩

/-- C6: when the network request raises a connect or read timeout, the
resolver returns the sentinel pair and the persisted cache is completely
unchanged — no entry is written for the map, so a later call retries the
network. -/
theorem C6_timeout_returns_sentinel_uncached
    (common_custom : List (String × (String × String))) (cache : Cache)
    (now ttl_hours : Nat) (map_filename : String) (force_api : Bool)
    (hm : map_filename ≠ "") (hs : lookupKey common_custom map_filename = none)
    (hh : cache_hit cache now ttl_hours map_filename force_api = none) :
    find_custom_map_gamemode common_custom cache now ttl_hours map_filename force_api
        NetResult.timeout =
      { result := ("unknown_map", "Unknown gamemode"), cache := cache,
        network_called := true } :=
  find_of_timeout hm hs hh

theorem C6_timeout_witness :
    (("pl_borneo_b4" : String) ≠ "" ∧
     lookupKey ([] : List (String × (String × String))) "pl_borneo_b4" = none ∧
     cache_hit [] 777 24 "pl_borneo_b4" false = none) ∧
    find_custom_map_gamemode [] [] 777 24 "pl_borneo_b4" false NetResult.timeout =
      { result := ("unknown_map", "Unknown gamemode"), cache := [],
        network_called := true } :=
  ⟨⟨by decide, by decide, by decide⟩,
   C6_timeout_returns_sentinel_uncached [] [] 777 24 "pl_borneo_b4" false
     (by decide) (by decide) (by decide)⟩

/-- C10: the cache accessor's write branch is guarded by Python
truthiness, so an empty dict input takes the read branch: it returns the
persisted custom-maps section and leaves the document unchanged, and no
input whatsoever can overwrite the persisted document with an empty
custom-maps section. -/
theorem C10_empty_dict_input_is_read (db : DB) :
    access_custom_maps_cache db (some []) = (db, some db.custom_maps) ∧
    ∀ dict_input, (access_custom_maps_cache db dict_input).1 = db ∨
      ((access_custom_maps_cache db dict_input).1.custom_maps).isEmpty = false := by
  refine ⟨rfl, fun dict_input => ?_⟩
  match dict_input with
  | none => exact Or.inl rfl
  | some d =>
      by_cases hd : d.isEmpty
      · exact Or.inl (by simp [access_custom_maps_cache, hd])
      · exact Or.inr (by simp [access_custom_maps_cache, hd])

theorem py_lower_tf2 : py_lower "TF2" = "tf2" := rfl

theorem py_lower_discord : py_lower "Discord" = "discord" := rfl

theorem py_lower_steam : py_lower "Steam" = "steam" := rfl

theorem npnr_fields (s : AppState) (pn ns : String) :
    (necessary_program_not_running s pn ns).test_state =
      "no " ++ py_lower (if ns = "" then pn else ns) ∧
    (necessary_program_not_running s pn ns).slow_sleep_time = true ∧
    (necessary_program_not_running s pn ns).client_connected = false ∧
    (necessary_program_not_running s pn ns).rpc_disconnects =
      s.rpc_disconnects + (if s.client_connected then 1 else 0) ∧
    (necessary_program_not_running s pn ns).has_checked_class_configs =
      s.has_checked_class_configs ∧
    (necessary_program_not_running s pn ns).class_config_runs = s.class_config_runs := by
  unfold necessary_program_not_running
  by_cases hc : s.client_connected <;> simp [hc]

/-- C9: the publish operation succeeds silently exactly on the two
recognized connect/send error strings — those are logged and swallowed
with the state (in particular the connected flag) unchanged — while every
other exception propagates out uncaught; a fully successful publish sets
the connected flag. -/
theorem C9_rpc_error_classification (s : AppState) (msg : String)
    (h : msg ∉ recognized_rpc_errors) :
    send_rpc_activity s RpcAttempt.success =
      Except.ok { s with client_connected := true } ∧
    (∀ m, m ∈ recognized_rpc_errors →
      send_rpc_activity s (RpcAttempt.failure m) = Except.ok s) ∧
    send_rpc_activity s (RpcAttempt.failure msg) = Except.error msg := by
  refine ⟨rfl, fun m hm => ?_, ?_⟩
  · simp [send_rpc_activity, hm]
  · simp [send_rpc_activity, h]

theorem C9_rpc_error_classification_witness :
    (("Broken pipe" : String) ∉ recognized_rpc_errors) ∧
    (send_rpc_activity initial_app_state RpcAttempt.success =
      Except.ok { initial_app_state with client_connected := true } ∧
    (∀ m, m ∈ recognized_rpc_errors →
      send_rpc_activity initial_app_state (RpcAttempt.failure m) =
        Except.ok initial_app_state) ∧
    send_rpc_activity initial_app_state (RpcAttempt.failure "Broken pipe") =
      Except.error "Broken pipe") :=
  ⟨by decide, C9_rpc_error_classification initial_app_state "Broken pipe" (by decide)⟩

/-- C7: on a tick where not all of the three required processes are
running, the tick completes without an exception, the session state is the
no-X variant of the first missing process in the priority order TF2,
Discord, Steam, the connected flag ends false (with one disconnect call
issued exactly when the client was previously connected), and the slow
sleep interval is marked for the next sleep. -/
theorem C7_missing_process_slow_and_disconnected (s : AppState) (p : PData)
    (in_menus update_rpc : Bool) (att : RpcAttempt)
    (h : ¬ (p.tf2_running && p.discord_running && p.steam_running) = true) :
    (loop_body s p in_menus update_rpc att).2 = none ∧
    (loop_body s p in_menus update_rpc att).1.test_state =
      (if p.tf2_running = false then "no tf2"
       else if p.discord_running = false then "no discord" else "no steam") ∧
    (loop_body s p in_menus update_rpc att).1.slow_sleep_time = true ∧
    (loop_body s p in_menus update_rpc att).1.client_connected = false ∧
    (loop_body s p in_menus update_rpc att).1.rpc_disconnects =
      s.rpc_disconnects + (if s.client_connected then 1 else 0) := by
  obtain ⟨tf2, dis, st⟩ := p
  by_cases hc : s.client_connected <;>
    cases tf2 <;> cases dis <;> cases st <;>
      simp_all [loop_body, necessary_program_not_running] <;>
        decide

theorem C7_missing_process_witness :
    (¬ ((PData.mk false false false).tf2_running &&
        (PData.mk false false false).discord_running &&
        (PData.mk false false false).steam_running) = true) ∧
    (let s := { initial_app_state with client_connected := true }
     (loop_body s (PData.mk false false false) false false RpcAttempt.success).2 = none ∧
     (loop_body s (PData.mk false false false) false false
        RpcAttempt.success).1.test_state = "no tf2" ∧
     (loop_body s (PData.mk false false false) false false
        RpcAttempt.success).1.slow_sleep_time = true ∧
     (loop_body s (PData.mk false false false) false false
        RpcAttempt.success).1.client_connected = false ∧
     (loop_body s (PData.mk false false false) false false
        RpcAttempt.success).1.rpc_disconnects = 1) := by
  refine ⟨by decide, ?_⟩
  have h := C7_missing_process_slow_and_disconnected
    { initial_app_state with client_connected := true }
    (PData.mk false false false) false false RpcAttempt.success (by decide)
  simpa using h

/-- C8, counterexample: starting from the initial state, a tick with all
processes running performs the class-config side effect once and sets the
guard; on a following tick where the game is not running the guard stays
set (it is never reset), so when the game is running again on the third
tick the side effect does not run a second time — the run counter stays
at 1, contradicting the claim that it runs again for the new session. -/
theorem C8_counterexample_guard_never_reset :
    (loop_body initial_app_state (PData.mk true true true) false false
        RpcAttempt.success).1.class_config_runs = 1 ∧
    ((loop_body (loop_body initial_app_state (PData.mk true true true) false false
        RpcAttempt.success).1 (PData.mk false true true) false false
        RpcAttempt.success).1.has_checked_class_configs = true ∧
     (loop_body (loop_body initial_app_state (PData.mk true true true) false false
        RpcAttempt.success).1 (PData.mk false true true) false false
        RpcAttempt.success).1.test_state = "no tf2") ∧
    (loop_body (loop_body (loop_body initial_app_state (PData.mk true true true)
        false false RpcAttempt.success).1 (PData.mk false true true) false false
        RpcAttempt.success).1 (PData.mk true true true) false false
        RpcAttempt.success).1.class_config_runs = 1 := by
  refine ⟨by decide, ⟨by decide, by decide⟩, by decide⟩

/-- C8, amended: the class-config side effect runs exactly on a tick where
all three required processes are running and the guard flag is unset, and
the flag is then set; the flag is never reset afterwards — not even when
the game stops running — so within one process lifetime the side effect
runs at most once, and a game restart does not run it again. -/
theorem C8_class_config_at_most_once_per_process (s : AppState) (p : PData)
    (in_menus update_rpc : Bool) (att : RpcAttempt) :
    (loop_body s p in_menus update_rpc att).1.class_config_runs =
      s.class_config_runs +
        (if (p.tf2_running && p.discord_running && p.steam_running)
            && !s.has_checked_class_configs then 1 else 0) ∧
    (loop_body s p in_menus update_rpc att).1.has_checked_class_configs =
      (s.has_checked_class_configs ||
        (p.tf2_running && p.discord_running && p.steam_running)) := by
  obtain ⟨tf2, dis, st⟩ := p
  by_cases hc : s.client_connected <;>
    cases tf2 <;> cases dis <;> cases st <;>
      by_cases hg : s.has_checked_class_configs <;>
        cases att with
        | success =>
            cases update_rpc <;>
              simp_all [loop_body, necessary_program_not_running, send_rpc_activity]
        | failure msg =>
            by_cases hm : msg ∈ recognized_rpc_errors <;>
              cases update_rpc <;>
                simp_all [loop_body, necessary_program_not_running, send_rpc_activity]

end TF2RP
